import Mathlib

/-!
A shallow embedding of the rule-evaluation engine of `hcp-config-validator`
(`src/validator/rules_engine.py`) together with proofs about it.

Python values flowing through the engine (parsed YAML/JSON/HCL trees, rule
fields, observations) are modelled by the inductive type `Value`.  Numbers are
modelled as integers (the repository's rules and documents use integral
values; fractional literals are outside the model).  Python dictionaries are
modelled as string-keyed association lists in insertion order.

Python code that can raise is modelled with `Except PyErr`; code the engine
wraps in `try/except` is modelled by catching the corresponding error value.
The external `jmespath.search` function is modelled as an explicit functional
parameter (`Search`), since the engine treats it as a black box whose failures
it catches.
-/

namespace HCP

/-- The model of Python values handled by the rules engine. -/
inductive Value where
  | null : Value
  | bool : Bool → Value
  | int : Int → Value
  | str : String → Value
  | list : List Value → Value
  | dict : List (String × Value) → Value

/-- Errors a Python expression in the engine may raise. -/
inductive PyErr where
  | typeError : PyErr
  | valueError : PyErr
  | regexError : PyErr
deriving DecidableEq, Repr

/-- Python `v is None`. -/
def Value.isNull : Value → Bool
  | .null => true
  | _ => false

/-- Python `isinstance(v, list)`. -/
def Value.isList : Value → Bool
  | .list _ => true
  | _ => false

/-- Numeric view used by Python comparisons: `bool` is a subtype of `int`. -/
def pyNum? : Value → Option Int
  | .int n => some n
  | .bool b => some (if b then 1 else 0)
  | _ => none

mutual
/-- Python `==` on modelled values: numeric cross-type equality between
`bool` and `int`, structural equality elsewhere; values of different
(non-numeric) types are unequal rather than raising. -/
def pyEq : Value → Value → Bool
  | .null, .null => true
  | .bool a, .bool b => a == b
  | .bool a, .int n => (if a then (1 : Int) else 0) == n
  | .int n, .bool a => n == (if a then (1 : Int) else 0)
  | .int a, .int b => a == b
  | .str a, .str b => a == b
  | .list a, .list b => pyEqList a b
  | .dict a, .dict b => pyEqDict a b
  | _, _ => false

/-- Python `==` on lists: elementwise. -/
def pyEqList : List Value → List Value → Bool
  | [], [] => true
  | x :: xs, y :: ys => pyEq x y && pyEqList xs ys
  | _, _ => false

/-- Python `==` on dicts, for dicts in matching insertion order (the only
form produced by the modelled parsers). -/
def pyEqDict : List (String × Value) → List (String × Value) → Bool
  | [], [] => true
  | (k, x) :: xs, (l, y) :: ys => k == l && pyEq x y && pyEqDict xs ys
  | _, _ => false
end

/-- A single-quote character, used by Python `repr` of strings. -/
def sq : String := String.singleton (Char.ofNat 39)

mutual
/-- Python `repr` of a modelled value. -/
def pyRepr : Value → String
  | .null => "None"
  | .bool b => if b then "True" else "False"
  | .int n => toString n
  | .str s => sq ++ s ++ sq
  | .list xs => "[" ++ pyReprList xs ++ "]"
  | .dict kvs => "\x7b" ++ pyReprDict kvs ++ "\x7d"

/-- Comma-separated `repr`s of list elements. -/
def pyReprList : List Value → String
  | [] => ""
  | [x] => pyRepr x
  | x :: xs => pyRepr x ++ ", " ++ pyReprList xs

/-- Comma-separated `repr`s of dict entries. -/
def pyReprDict : List (String × Value) → String
  | [] => ""
  | [(k, v)] => sq ++ k ++ sq ++ ": " ++ pyRepr v
  | (k, v) :: kvs => sq ++ k ++ sq ++ ": " ++ pyRepr v ++ ", " ++ pyReprDict kvs
end

/-- Python `str` of a modelled value (differs from `repr` only on strings). -/
def pyStr : Value → String
  | .str s => s
  | v => pyRepr v

/-- Whitespace recognised by Python `int(s)` stripping. -/
def isSpaceChar (c : Char) : Bool :=
  c == ' ' || c == '\t' || c == '\n' || c == '\r'

/-- Strip leading and trailing whitespace from a character list. -/
def trimChars (cs : List Char) : List Char :=
  ((cs.dropWhile isSpaceChar).reverse.dropWhile isSpaceChar).reverse

/-- `s.startswith(p)`. -/
def startsWithB (s p : String) : Bool :=
  p.data.isPrefixOf s.data

/-- `s.endswith(p)`. -/
def endsWithB (s p : String) : Bool :=
  p.data.isSuffixOf s.data

/-- Does `hay` contain `needle` as a contiguous run? -/
def containsSub (needle : List Char) : List Char → Bool
  | [] => needle.isPrefixOf []
  | c :: cs => needle.isPrefixOf (c :: cs) || containsSub needle cs

/-- `v.replace("tls", "")`, specialised to the engine's call site: remove
every (left-to-right, non-overlapping) occurrence of `"tls"`. -/
def stripTls : List Char → List Char
  | 't' :: 'l' :: 's' :: rest => stripTls rest
  | c :: rest => c :: stripTls rest
  | [] => []

/-- Parse a nonempty all-digit character list to its numeric value. -/
def digitsToNat? (cs : List Char) : Option Nat :=
  if cs ≠ [] ∧ cs.all Char.isDigit then
    some (cs.foldl (fun acc c => 10 * acc + (c.toNat - 48)) 0)
  else none

/-- Model of Python `int(s)` on strings: surrounding whitespace stripped, an
optional sign, then decimal digits; anything else raises `ValueError`
(`none` here).  Underscore digit grouping is outside the model. -/
def pyIntOfString (s : String) : Option Int :=
  match trimChars s.data with
  | '-' :: rest => (digitsToNat? rest).map (fun n => -(n : Int))
  | '+' :: rest => (digitsToNat? rest).map (fun n => (n : Int))
  | cs => (digitsToNat? cs).map (fun n => (n : Int))

/-- Model of Python `float(v)` used by the `gt`/`lt` coercion, restricted to
integral numerics: ints and bools coerce, numeric strings parse, everything
else fails (`none`, standing for the raised `TypeError`/`ValueError` that the
source catches). -/
def pyFloat? : Value → Option Int
  | .int n => some n
  | .bool b => some (if b then 1 else 0)
  | .str s => pyIntOfString s
  | _ => none

/-- Python `a > b` on modelled values: numeric against numeric, string
against string (lexicographic); other combinations raise `TypeError`
(sequence-against-sequence comparison is outside the model and also mapped
to `TypeError`). -/
def pyGtRaw (a b : Value) : Except PyErr Bool :=
  match pyNum? a, pyNum? b with
  | some x, some y => .ok (decide (x > y))
  | _, _ =>
    match a, b with
    | .str s, .str t => .ok (decide (t < s))
    | _, _ => .error .typeError

/-- Python `a < b`, same coverage as `pyGtRaw`. -/
def pyLtRaw (a b : Value) : Except PyErr Bool :=
  match pyNum? a, pyNum? b with
  | some x, some y => .ok (decide (x < y))
  | _, _ =>
    match a, b with
    | .str s, .str t => .ok (decide (s < t))
    | _, _ => .error .typeError

/-- Substring test: does `hay` contain `needle`? -/
def strContains (needle hay : String) : Bool :=
  containsSub needle.data hay.data

/-- Python `x in container`: list membership by `==`, substring test on
strings (non-string members raise `TypeError`), key membership on dicts
(unhashable members raise `TypeError`); non-container values raise
`TypeError`. -/
def pyIn (x container : Value) : Except PyErr Bool :=
  match container with
  | .list ys => .ok (ys.any (fun y => pyEq y x))
  | .str s =>
    match x with
    | .str sub => .ok (strContains sub s)
    | _ => .error .typeError
  | .dict kvs =>
    match x with
    | .str k => .ok (kvs.any (fun kv => kv.fst == k))
    | .list _ => .error .typeError
    | .dict _ => .error .typeError
    | _ => .ok false
  | _ => .error .typeError

/-- Parenthesis balance check over the characters of a pattern. -/
def parenBalance : List Char → Nat → Bool
  | [], d => d == 0
  | c :: cs, d =>
    if c == '(' then parenBalance cs (d + 1)
    else if c == ')' then decide (0 < d) && parenBalance cs (d - 1)
    else parenBalance cs d

/-- Model of `re.compile` validity: patterns with unbalanced parentheses or
a trailing backslash are malformed and raise `re.error`. -/
def regexWellFormed (p : String) : Bool :=
  parenBalance p.data 0 && !(endsWithB p "\\")

/-- Model of the Python stdlib `re.search(pattern, s)` as used by the
engine, restricted to literal patterns: a non-string pattern raises
`TypeError`, a malformed pattern raises `re.error` (`regexError`), and a
well-formed pattern matches iff it occurs in `s` as a substring
(metacharacter semantics are outside the model). -/
def reSearch (pattern : Value) (s : String) : Except PyErr Bool :=
  match pattern with
  | .str p =>
    if regexWellFormed p then .ok (strContains p s) else .error .regexError
  | _ => .error .typeError

/-- A rule record, as loaded from YAML (`rules_engine.load_rules`).  A field
of `Option` type distinguishes an absent key from a present one; metadata
fields that are merely echoed into the verdict are plain `Value`s, with an
absent key represented by `null`, exactly as Python `dict.get` returns. -/
structure Rule where
  id : Value := .null
  title : Value := .null
  severity : Option String := none
  jmespath : Option String := none
  operator : Option String := none
  expected : Value := .null
  message : Value := .null
  remediation : Value := .null
  reference : Value := .null

/-- The result dictionary built at the end of `evaluate_rule`. -/
structure Verdict where
  id : Value
  title : Value
  severity : Value
  passed : Bool
  observed : Value
  message : Value
  remediation : Value
  reference : Value

/-- The verdict dictionary literal of `evaluate_rule` (lines 56-65):
metadata echoed from the rule, `severity` defaulting to `"info"`. -/
def mkVerdict (r : Rule) (passed : Bool) (observed : Value) : Verdict :=
  { id := r.id
    title := r.title
    severity := match r.severity with | some s => .str s | none => .str "info"
    passed := passed
    observed := observed
    message := r.message
    remediation := r.remediation
    reference := r.reference }

/-- `tls_version_to_num` (rules_engine.py lines 69-74): `None` maps to `0`;
a string starting with `"tls"` has every `"tls"` occurrence removed and the
remainder parsed by `int(...)`, raising `ValueError` when the remainder is
not a decimal integer; any other value passes through unchanged. -/
def tls_version_to_num (v : Value) : Except PyErr Value :=
  match v with
  | .null => .ok (.int 0)
  | .str s =>
    if startsWithB s "tls" then
      match pyIntOfString (String.mk (stripTls s.data)) with
      | some n => .ok (.int n)
      | none => .error .valueError
    else .ok (.str s)
  | v => .ok v

/-- The guard `rule and rule.get("jmespath", "").endswith("tls_min_version")`
of `_eval_single`. -/
def tlsRuleB : Option Rule → Bool
  | some r => endsWithB (r.jmespath.getD "") "tls_min_version"
  | none => false

/-- `_eval_single` (rules_engine.py lines 67-111).  The `rule` parameter
defaults to `None` in the source; list aggregation calls it without a rule,
the scalar path passes the rule. -/
def _eval_single (operator : String) (observed expected : Value)
    (rule : Option Rule) : Except PyErr Bool :=
  if operator = "exists" then .ok (!observed.isNull)
  else if operator = "absent" then .ok observed.isNull
  else if operator = "equals" then
    if tlsRuleB rule then do
      let a ← tls_version_to_num observed
      let b ← tls_version_to_num expected
      pure (pyEq a b)
    else .ok (pyEq observed expected)
  else if operator = "not_equals" then
    if tlsRuleB rule then do
      let a ← tls_version_to_num observed
      let b ← tls_version_to_num expected
      pure (!pyEq a b)
    else .ok (!pyEq observed expected)
  else if operator = "in" then
    if observed.isNull then .ok false else pyIn observed expected
  else if operator = "regex" then
    if observed.isNull then .ok false
    else reSearch expected (pyStr observed)
  else if operator = "gt" then
    if tlsRuleB rule then do
      let a ← tls_version_to_num observed
      let b ← tls_version_to_num expected
      pyGtRaw a b
    else
      match pyFloat? observed, pyFloat? expected with
      | some x, some y => .ok (decide (x > y))
      | _, _ => .ok false
  else if operator = "lt" then
    if tlsRuleB rule then do
      let a ← tls_version_to_num observed
      let b ← tls_version_to_num expected
      pyLtRaw a b
    else
      match pyFloat? observed, pyFloat? expected with
      | some x, some y => .ok (decide (x < y))
      | _, _ => .ok false
  else .ok false

/-- The external `jmespath.search` capability: an arbitrary query function
that may raise (its exceptions are caught by the engine). -/
def Search : Type := String → Value → Except Unit Value

/-- Lines 22-31 of `evaluate_rule`: a missing or empty (falsy) `jmespath`
skips extraction, and any extraction failure is caught and yields `None`. -/
def extractObserved (search : Search) (r : Rule) (doc : Value) : Value :=
  match r.jmespath with
  | none => .null
  | some e =>
    if e = "" then .null
    else
      match search e doc with
      | .ok v => v
      | .error _ => .null

/-- One-level flattening of a sequence observation (lines 37-43): each
element that is itself a list is spliced into the parent, other elements
are kept; not applied recursively. -/
def flattenOnce : List Value → List Value
  | [] => []
  | .list ys :: xs => ys ++ flattenOnce xs
  | x :: xs => x :: flattenOnce xs

/-- Python `all(f(x) for x in xs)`: short-circuits at the first `False`,
propagates the first exception reached. -/
def pyAll (f : Value → Except PyErr Bool) : List Value → Except PyErr Bool
  | [] => .ok true
  | x :: xs =>
    match f x with
    | .error e => .error e
    | .ok false => .ok false
    | .ok true => pyAll f xs

/-- Python `any(f(x) for x in xs)`: short-circuits at the first `True`,
propagates the first exception reached. -/
def pyAny (f : Value → Except PyErr Bool) : List Value → Except PyErr Bool
  | [] => .ok false
  | x :: xs =>
    match f x with
    | .error e => .error e
    | .ok true => .ok true
    | .ok false => pyAny f xs

/-- `evaluate_rule` (rules_engine.py lines 21-65). -/
def evaluate_rule (search : Search) (rule : Rule) (doc : Value) :
    Except PyErr Verdict :=
  let operator := rule.operator.getD "exists"
  let expected := rule.expected
  let observed := extractObserved search rule doc
  match observed with
  | .list items =>
    let flat := flattenOnce items
    let passedE : Except PyErr Bool :=
      if operator = "regex" then
        match pyAny (fun item => _eval_single operator item expected none) flat with
        | .error e => .error e
        | .ok b => .ok (!b)
      else if operator = "exists" then
        pyAll (fun item => _eval_single operator item expected none) flat
      else if operator = "absent" then
        pyAll (fun item => _eval_single operator item expected none) flat
      else
        pyAll (fun item => _eval_single operator item expected none) flat
    match passedE with
    | .error e => .error e
    | .ok passed => .ok (mkVerdict rule passed (.list flat))
  | obs =>
    match _eval_single operator obs expected (some rule) with
    | .error e => .error e
    | .ok passed => .ok (mkVerdict rule passed obs)

/-- `run_rules_for_file` (rules_engine.py lines 113-117): evaluate each rule
in order against the document, collecting the verdicts; an exception from
any evaluation aborts the loop. -/
def run_rules_for_file (search : Search) (rules : List Rule) (doc : Value) :
    Except PyErr (List Verdict) :=
  match rules with
  | [] => .ok []
  | r :: rs =>
    match evaluate_rule search r doc with
    | .error e => .error e
    | .ok v =>
      match run_rules_for_file search rs doc with
      | .error e => .error e
      | .ok vs => .ok (v :: vs)

/-! ### Helper lemmas about the aggregation combinators -/

theorem pyAll_ok_iff {f : Value → Except PyErr Bool} :
    ∀ {xs : List Value} {b : Bool}, pyAll f xs = .ok b →
      (b = true ↔ ∀ x ∈ xs, f x = .ok true) := by
  intro xs
  induction xs with
  | nil =>
    intro b h
    simp only [pyAll, Except.ok.injEq] at h
    subst h
    simp
  | cons x xs ih =>
    intro b h
    simp only [pyAll] at h
    cases hf : f x with
    | error e => rw [hf] at h; cases h
    | ok bv =>
      rw [hf] at h
      cases bv with
      | false =>
        simp only [Except.ok.injEq] at h
        subst h
        constructor
        · intro hb; cases hb
        · intro hall
          have := hall x (List.mem_cons_self x xs)
          rw [hf] at this
          cases this
      | true =>
        have hiff := ih h
        constructor
        · intro hb y hy
          rcases List.mem_cons.mp hy with hyx | hyxs
          · subst hyx; exact hf
          · exact hiff.mp hb y hyxs
        · intro hall
          exact hiff.mpr (fun y hy => hall y (List.mem_cons_of_mem x hy))

theorem pyAny_ok_iff {f : Value → Except PyErr Bool} :
    ∀ {xs : List Value} {b : Bool}, pyAny f xs = .ok b →
      (b = true ↔ ∃ x ∈ xs, f x = .ok true) := by
  intro xs
  induction xs with
  | nil =>
    intro b h
    simp only [pyAny, Except.ok.injEq] at h
    subst h
    simp
  | cons x xs ih =>
    intro b h
    simp only [pyAny] at h
    cases hf : f x with
    | error e => rw [hf] at h; cases h
    | ok bv =>
      rw [hf] at h
      cases bv with
      | true =>
        simp only [Except.ok.injEq] at h
        subst h
        exact ⟨fun _ => ⟨x, List.mem_cons_self x xs, hf⟩, fun _ => rfl⟩
      | false =>
        have hiff := ih h
        constructor
        · intro hb
          rcases hiff.mp hb with ⟨y, hy, hfy⟩
          exact ⟨y, List.mem_cons_of_mem x hy, hfy⟩
        · intro hex
          rcases hex with ⟨y, hy, hfy⟩
          rcases List.mem_cons.mp hy with hyx | hyxs
          · subst hyx; rw [hf] at hfy; cases hfy
          · exact hiff.mpr ⟨y, hyxs, hfy⟩

theorem pyAll_isOk {f : Value → Except PyErr Bool} :
    ∀ {xs : List Value}, (∀ x ∈ xs, ∃ b, f x = .ok b) →
      ∃ b, pyAll f xs = .ok b := by
  intro xs
  induction xs with
  | nil => intro _; exact ⟨true, rfl⟩
  | cons x xs ih =>
    intro hall
    rcases hall x (List.mem_cons_self x xs) with ⟨bx, hbx⟩
    rcases ih (fun y hy => hall y (List.mem_cons_of_mem x hy)) with ⟨btl, hbtl⟩
    cases bx with
    | false => exact ⟨false, by simp only [pyAll, hbx]⟩
    | true => exact ⟨btl, by simp only [pyAll, hbx]; exact hbtl⟩

theorem pyAll_const_false {f : Value → Except PyErr Bool}
    (h : ∀ x, f x = .ok false) :
    ∀ xs, pyAll f xs = .ok xs.isEmpty := by
  intro xs
  cases xs with
  | nil => rfl
  | cons x xs => simp only [pyAll, h x, List.isEmpty_cons]

theorem pyAll_pred {f : Value → Except PyErr Bool} {p : Value → Bool}
    (h : ∀ x, f x = .ok (p x)) :
    ∀ xs, pyAll f xs = .ok (xs.all p) := by
  intro xs
  induction xs with
  | nil => rfl
  | cons x xs ih =>
    simp only [pyAll, h x, List.all_cons]
    cases hp : p x with
    | false => rfl
    | true => simpa using ih

/-! ### Helper lemmas about the single-value predicate -/

theorem eval_single_tls_congr (op : String) (x e : Value) (r₁ r₂ : Option Rule)
    (h : tlsRuleB r₁ = tlsRuleB r₂) :
    _eval_single op x e r₁ = _eval_single op x e r₂ := by
  unfold _eval_single
  rw [h]

theorem eval_single_isOk {op : String} {observed expected : Value}
    {rule : Option Rule} (hin : op ≠ "in") (hre : op ≠ "regex")
    (htls : tlsRuleB rule = false) :
    ∃ b, _eval_single op observed expected rule = .ok b := by
  unfold _eval_single
  rw [htls]
  simp only [Bool.false_eq_true, if_false]
  split_ifs
  all_goals first
    | exact ⟨_, rfl⟩
    | (cases pyFloat? observed <;> cases pyFloat? expected <;> exact ⟨_, rfl⟩)

theorem eval_single_unknown {op : String} (x e : Value) (r : Option Rule)
    (h1 : op ≠ "exists") (h2 : op ≠ "absent") (h3 : op ≠ "equals")
    (h4 : op ≠ "not_equals") (h5 : op ≠ "in") (h6 : op ≠ "regex")
    (h7 : op ≠ "gt") (h8 : op ≠ "lt") :
    _eval_single op x e r = .ok false := by
  unfold _eval_single
  simp only [h1, h2, h3, h4, h5, h6, h7, h8, if_false]

/-! ### Branch characterizations of `evaluate_rule` -/

theorem evaluate_rule_scalar_ok (search : Search) (rule : Rule) (doc : Value)
    (b : Bool) (h : (extractObserved search rule doc).isList = false)
    (he : _eval_single (rule.operator.getD "exists")
        (extractObserved search rule doc) rule.expected (some rule) = .ok b) :
    evaluate_rule search rule doc =
      .ok (mkVerdict rule b (extractObserved search rule doc)) := by
  unfold evaluate_rule
  cases hobs : extractObserved search rule doc
  case list items => rw [hobs] at h; simp [Value.isList] at h
  all_goals rw [hobs] at he; simp only [hobs, he]

theorem evaluate_rule_list_ok (search : Search) (rule : Rule) (doc : Value)
    (items : List Value) (b : Bool)
    (hobs : extractObserved search rule doc = .list items)
    (hre : rule.operator.getD "exists" ≠ "regex")
    (hagg : pyAll (fun item => _eval_single (rule.operator.getD "exists") item
        rule.expected none) (flattenOnce items) = .ok b) :
    evaluate_rule search rule doc =
      .ok (mkVerdict rule b (.list (flattenOnce items))) := by
  unfold evaluate_rule
  simp only [hobs]
  split_ifs with h1 h2 h3
  · exact absurd h1 hre
  all_goals simp only [hagg]

theorem evaluate_rule_list_inv (search : Search) (rule : Rule) (doc : Value)
    (items : List Value) (v : Verdict)
    (hobs : extractObserved search rule doc = .list items)
    (hre : rule.operator.getD "exists" ≠ "regex")
    (h : evaluate_rule search rule doc = .ok v) :
    pyAll (fun item => _eval_single (rule.operator.getD "exists") item
        rule.expected none) (flattenOnce items) = .ok v.passed ∧
    v.observed = .list (flattenOnce items) := by
  unfold evaluate_rule at h
  simp only [hobs] at h
  split_ifs at h with h1 h2 h3
  · exact absurd h1 hre
  all_goals {
    cases hagg : pyAll (fun item => _eval_single (rule.operator.getD "exists")
        item rule.expected none) (flattenOnce items) with
    | error e => rw [hagg] at h; cases h
    | ok bv =>
      rw [hagg] at h
      simp only [Except.ok.injEq] at h
      subst h
      exact ⟨rfl, rfl⟩ }

theorem evaluate_rule_list_regex_ok (search : Search) (rule : Rule)
    (doc : Value) (items : List Value) (b : Bool)
    (hobs : extractObserved search rule doc = .list items)
    (hre : rule.operator.getD "exists" = "regex")
    (hagg : pyAny (fun item => _eval_single "regex" item rule.expected none)
        (flattenOnce items) = .ok b) :
    evaluate_rule search rule doc =
      .ok (mkVerdict rule (!b) (.list (flattenOnce items))) := by
  unfold evaluate_rule
  simp only [hobs, hre]
  simp only [hagg]
  rfl

theorem evaluate_rule_list_regex_inv (search : Search) (rule : Rule)
    (doc : Value) (items : List Value) (v : Verdict)
    (hobs : extractObserved search rule doc = .list items)
    (hre : rule.operator.getD "exists" = "regex")
    (h : evaluate_rule search rule doc = .ok v) :
    ∃ b, pyAny (fun item => _eval_single "regex" item rule.expected none)
        (flattenOnce items) = .ok b ∧
      v.passed = !b ∧ v.observed = .list (flattenOnce items) := by
  unfold evaluate_rule at h
  simp only [hobs] at h
  split_ifs at h
  rw [hre] at h
  cases hagg : pyAny (fun item => _eval_single "regex" item rule.expected none)
      (flattenOnce items) with
  | error e =>
    rw [hagg] at h
    simp at h
  | ok bv =>
    rw [hagg] at h
    simp only [Except.ok.injEq] at h
    subst h
    exact ⟨bv, rfl, rfl, rfl⟩

/-! ### Claim C1 -/

/-- Search and rule exhibiting `in` with a non-container `expected`. -/
def c1search : Search := fun _ _ => .ok (.int 1)

def c1rule : Rule :=
  { id := .str "C1", jmespath := some "foo", operator := some "in",
    expected := .int 5 }

/-- Claim C1 counterexample: the claim says every error path, including a
non-container `expected` for `in`, resolves to a boolean verdict; but
evaluating `{operator: in, expected: 5}` against observed `1` propagates a
`TypeError` (`1 in 5` is not defined), so evaluation does raise. -/
theorem claim1_counterexample :
    evaluate_rule c1search c1rule .null = .error .typeError := rfl

/-- Claim C1 (amended): for a rule whose effective operator is neither `in`
nor `regex` and whose path expression does not end with `tls_min_version`,
evaluation never raises — every error path (unrecognized operator,
non-coercible numeric operands) resolves to a verdict.  The excluded cases
can propagate exceptions: `in` with a non-container `expected`, a malformed
regex pattern, and a `tls`-prefixed version string with a non-numeric
remainder under the TLS path. -/
theorem claim1_amended_no_raise (search : Search) (rule : Rule) (doc : Value)
    (hin : rule.operator.getD "exists" ≠ "in")
    (hre : rule.operator.getD "exists" ≠ "regex")
    (htls : endsWithB (rule.jmespath.getD "") "tls_min_version" = false) :
    ∃ v, evaluate_rule search rule doc = .ok v := by
  by_cases hl : (extractObserved search rule doc).isList = true
  · cases hobs : extractObserved search rule doc with
    | list items =>
      have hall : ∀ x ∈ flattenOnce items, ∃ b,
          _eval_single (rule.operator.getD "exists") x rule.expected none =
            .ok b :=
        fun x _ => eval_single_isOk hin hre rfl
      rcases pyAll_isOk hall with ⟨b, hb⟩
      exact ⟨_, evaluate_rule_list_ok search rule doc items b hobs hre hb⟩
    | null => rw [hobs] at hl; simp [Value.isList] at hl
    | bool b => rw [hobs] at hl; simp [Value.isList] at hl
    | int n => rw [hobs] at hl; simp [Value.isList] at hl
    | str s => rw [hobs] at hl; simp [Value.isList] at hl
    | dict kvs => rw [hobs] at hl; simp [Value.isList] at hl
  · have hl' : (extractObserved search rule doc).isList = false := by
      simpa using hl
    have htls' : tlsRuleB (some rule) = false := htls
    rcases @eval_single_isOk (rule.operator.getD "exists")
        (extractObserved search rule doc) rule.expected (some rule)
        hin hre htls' with ⟨b, hb⟩
    exact ⟨_, evaluate_rule_scalar_ok search rule doc b hl' hb⟩

def c1wrule : Rule :=
  { jmespath := some "foo.bar", operator := some "equals", expected := .int 3 }

def c1wsearch : Search := fun _ _ => .ok (.int 3)

/-- Witness for the amended Claim C1 at a concrete rule and document. -/
theorem claim1_amended_no_raise_witness :
    (c1wrule.operator.getD "exists" ≠ "in" ∧
     c1wrule.operator.getD "exists" ≠ "regex" ∧
     endsWithB (c1wrule.jmespath.getD "") "tls_min_version" = false) ∧
    ∃ v, evaluate_rule c1wsearch c1wrule .null = .ok v :=
  ⟨⟨by decide, by decide, by decide⟩,
   claim1_amended_no_raise c1wsearch c1wrule .null (by decide) (by decide)
     (by decide)⟩

/-! ### Claim C2 -/

def c2rule : Rule :=
  { jmespath := some "listener[*].tls_min_version", operator := some "equals",
    expected := .str "tls0" }

def c2search : Search := fun _ _ => .ok (.list [.null])

/-- Claim C2 counterexample: the claim says elements of a sequence
observation are also compared via the numeric transform.  For a rule whose
path ends with `tls_min_version`, `operator = equals`, `expected = "tls0"`,
and a sequence observation `[null]`, the transform would give `0 = 0`,
hence `passed = true` — and indeed the single-value predicate with the rule
context does return true on that element.  But the aggregation calls the
predicate without the rule context, compares `null == "tls0"` raw, and the
verdict has `passed = false`. -/
theorem claim2_counterexample :
    (evaluate_rule c2search c2rule .null).map Verdict.passed = .ok false ∧
    _eval_single "equals" .null (.str "tls0") (some c2rule) = .ok true :=
  ⟨rfl, rfl⟩

def tlsEqualsRule : Rule :=
  { jmespath := some "listener[0].tls_min_version", operator := some "equals",
    expected := .str "tls12" }

def tls12search : Search := fun _ _ => .ok (.str "tls12")

def tls13search : Search := fun _ _ => .ok (.str "tls13")

def tlsNullSearch : Search := fun _ _ => .ok .null

/-- Claim C2 (amended): the numeric transform applies only when the rule
context is passed to the single-value predicate, which happens exactly for
non-sequence observations; elements of a sequence observation are compared
raw.  For a rule whose path ends with `tls_min_version`, the four operators
compare the two operands via `tls_version_to_num` (null ↦ 0, `"tls"`+digits
↦ the digits' value, other values pass through; a `"tls"`-prefixed string
with non-numeric remainder raises).  Any non-sequence observation reaches
the predicate with the rule context, and the spec's three `equals`/`tls12`
examples hold. -/
theorem claim2_amended_tls_transform :
    (∀ (r : Rule) (observed expected : Value), tlsRuleB (some r) = true →
      (_eval_single "equals" observed expected (some r) =
        (do
          let a ← tls_version_to_num observed
          let b ← tls_version_to_num expected
          pure (pyEq a b)) ∧
       _eval_single "not_equals" observed expected (some r) =
        (do
          let a ← tls_version_to_num observed
          let b ← tls_version_to_num expected
          pure (!pyEq a b)) ∧
       _eval_single "gt" observed expected (some r) =
        (do
          let a ← tls_version_to_num observed
          let b ← tls_version_to_num expected
          pyGtRaw a b) ∧
       _eval_single "lt" observed expected (some r) =
        (do
          let a ← tls_version_to_num observed
          let b ← tls_version_to_num expected
          pyLtRaw a b))) ∧
    (∀ (search : Search) (r : Rule) (doc : Value) (b : Bool),
      (extractObserved search r doc).isList = false →
      _eval_single (r.operator.getD "exists") (extractObserved search r doc)
          r.expected (some r) = .ok b →
      evaluate_rule search r doc =
        .ok (mkVerdict r b (extractObserved search r doc))) ∧
    (evaluate_rule tls12search tlsEqualsRule .null).map Verdict.passed =
      .ok true ∧
    (evaluate_rule tls13search tlsEqualsRule .null).map Verdict.passed =
      .ok false ∧
    (evaluate_rule tlsNullSearch tlsEqualsRule .null).map Verdict.passed =
      .ok false := by
  refine ⟨?_, evaluate_rule_scalar_ok, rfl, rfl, rfl⟩
  intro r observed expected htls
  refine ⟨?_, ?_, ?_, ?_⟩
  all_goals unfold _eval_single
  all_goals rw [htls]
  all_goals rfl

/-- Witness for the amended Claim C2 at concrete inputs. -/
theorem claim2_amended_tls_transform_witness :
    (tlsRuleB (some tlsEqualsRule) = true ∧
     _eval_single "equals" (.str "tls13") (.str "tls12")
         (some tlsEqualsRule) =
       (do
         let a ← tls_version_to_num (.str "tls13")
         let b ← tls_version_to_num (.str "tls12")
         pure (pyEq a b))) ∧
    ((extractObserved tls12search tlsEqualsRule .null).isList = false ∧
     evaluate_rule tls12search tlsEqualsRule .null =
       .ok (mkVerdict tlsEqualsRule true (.str "tls12"))) :=
  ⟨⟨by decide,
    (claim2_amended_tls_transform.1 tlsEqualsRule (.str "tls13")
      (.str "tls12") (by decide)).1⟩,
   ⟨by decide,
    claim2_amended_tls_transform.2.1 tls12search tlsEqualsRule .null true
      (by decide) rfl⟩⟩

/-! ### Claim C3 -/

def c3rule : Rule :=
  { jmespath := some "x", operator := some "startswith", expected := .int 1 }

def c3search : Search := fun _ _ => .ok (.list [])

/-- Claim C3 counterexample: the claim says an unrecognized operator gives
`passed = false` for every observation; but with operator `"startswith"`
and an empty sequence observation the aggregation is vacuous and the
verdict has `passed = true`. -/
theorem claim3_counterexample :
    (evaluate_rule c3search c3rule .null).map Verdict.passed = .ok true := rfl

/-- Claim C3 (amended): an unrecognized operator makes the single-value
predicate false, so a non-sequence observation gives `passed = false`, and
a sequence observation gives `passed = false` unless the flattened sequence
is empty, in which case the AND-aggregation is vacuous and `passed =
true`. -/
theorem claim3_amended_unknown_operator (search : Search) (rule : Rule)
    (doc : Value)
    (h1 : rule.operator.getD "exists" ≠ "exists")
    (h2 : rule.operator.getD "exists" ≠ "absent")
    (h3 : rule.operator.getD "exists" ≠ "equals")
    (h4 : rule.operator.getD "exists" ≠ "not_equals")
    (h5 : rule.operator.getD "exists" ≠ "in")
    (h6 : rule.operator.getD "exists" ≠ "regex")
    (h7 : rule.operator.getD "exists" ≠ "gt")
    (h8 : rule.operator.getD "exists" ≠ "lt") :
    ((extractObserved search rule doc).isList = false →
      evaluate_rule search rule doc =
        .ok (mkVerdict rule false (extractObserved search rule doc))) ∧
    (∀ items, extractObserved search rule doc = .list items →
      evaluate_rule search rule doc =
        .ok (mkVerdict rule (flattenOnce items).isEmpty
          (.list (flattenOnce items)))) := by
  constructor
  · intro hl
    exact evaluate_rule_scalar_ok search rule doc false hl
      (eval_single_unknown _ _ _ h1 h2 h3 h4 h5 h6 h7 h8)
  · intro items hobs
    exact evaluate_rule_list_ok search rule doc items _ hobs h6
      (pyAll_const_false
        (fun x => eval_single_unknown _ _ _ h1 h2 h3 h4 h5 h6 h7 h8)
        (flattenOnce items))

def c3wsearch : Search := fun _ _ => .ok (.int 7)

/-- Witness for the amended Claim C3: operator `"startswith"` against a
scalar observation fails, against an empty sequence observation passes. -/
theorem claim3_amended_unknown_operator_witness :
    (c3rule.operator.getD "exists" ≠ "exists" ∧
     c3rule.operator.getD "exists" ≠ "absent" ∧
     c3rule.operator.getD "exists" ≠ "equals" ∧
     c3rule.operator.getD "exists" ≠ "not_equals" ∧
     c3rule.operator.getD "exists" ≠ "in" ∧
     c3rule.operator.getD "exists" ≠ "regex" ∧
     c3rule.operator.getD "exists" ≠ "gt" ∧
     c3rule.operator.getD "exists" ≠ "lt") ∧
    evaluate_rule c3wsearch c3rule .null =
      .ok (mkVerdict c3rule false (.int 7)) ∧
    evaluate_rule c3search c3rule .null =
      .ok (mkVerdict c3rule true (.list [])) :=
  ⟨⟨by decide, by decide, by decide, by decide, by decide, by decide,
    by decide, by decide⟩,
   (claim3_amended_unknown_operator c3wsearch c3rule .null (by decide)
     (by decide) (by decide) (by decide) (by decide) (by decide) (by decide)
     (by decide)).1 (by decide),
   (claim3_amended_unknown_operator c3search c3rule .null (by decide)
     (by decide) (by decide) (by decide) (by decide) (by decide) (by decide)
     (by decide)).2 [] rfl⟩

/-! ### Claim C4 -/

def c4rule : Rule :=
  { jmespath := some "x", operator := some "equals", expected := .int 1 }

def c4s111 : Search := fun _ _ => .ok (.list [.int 1, .int 1, .int 1])

def c4s121 : Search := fun _ _ => .ok (.list [.int 1, .int 2, .int 1])

def c4sempty : Search := fun _ _ => .ok (.list [])

/-- Claim C4: for a non-regex operator a sequence observation (after
one-level flattening) passes iff the single-value predicate holds for every
element; an empty sequence passes vacuously, `[1,1,1]`/`equals 1` passes,
`[1,2,1]` fails. -/
theorem claim4_list_and_aggregation :
    (∀ (search : Search) (rule : Rule) (doc : Value) (items : List Value)
        (v : Verdict),
      rule.operator.getD "exists" ≠ "regex" →
      extractObserved search rule doc = .list items →
      evaluate_rule search rule doc = .ok v →
      (v.passed = true ↔ ∀ x ∈ flattenOnce items,
        _eval_single (rule.operator.getD "exists") x rule.expected none =
          .ok true)) ∧
    (evaluate_rule c4s111 c4rule .null).map Verdict.passed = .ok true ∧
    (evaluate_rule c4s121 c4rule .null).map Verdict.passed = .ok false ∧
    (evaluate_rule c4sempty c4rule .null).map Verdict.passed = .ok true := by
  refine ⟨?_, rfl, rfl, rfl⟩
  intro search rule doc items v hre hobs h
  exact pyAll_ok_iff
    (evaluate_rule_list_inv search rule doc items v hobs hre h).1

/-- Witness for Claim C4 at the `[1,1,1]`/`equals 1` instance. -/
theorem claim4_list_and_aggregation_witness :
    (c4rule.operator.getD "exists" ≠ "regex" ∧
     extractObserved c4s111 c4rule .null = .list [.int 1, .int 1, .int 1] ∧
     evaluate_rule c4s111 c4rule .null =
       .ok (mkVerdict c4rule true (.list [.int 1, .int 1, .int 1]))) ∧
    ((mkVerdict c4rule true (.list [.int 1, .int 1, .int 1])).passed = true ↔
      ∀ x ∈ flattenOnce [.int 1, .int 1, .int 1],
        _eval_single (c4rule.operator.getD "exists") x c4rule.expected none =
          .ok true) :=
  ⟨⟨by decide, rfl, rfl⟩,
   claim4_list_and_aggregation.1 c4s111 c4rule .null
     [.int 1, .int 1, .int 1] _ (by decide) rfl rfl⟩

/-! ### Claim C5 -/

def c5rule : Rule :=
  { jmespath := some "x", operator := some "regex", expected := .str "BEGIN" }

def c5search : Search :=
  fun _ _ => .ok (.list [.str "safe", .str "BEGIN SECRET"])

/-- Claim C5: for operator `regex`, a sequence observation fails iff some
flattened element matches the pattern (per-element polarity inverted in
aggregation); `"BEGIN"` against `["safe","BEGIN SECRET"]` fails. -/
theorem claim5_regex_inverted_aggregation :
    (∀ (search : Search) (rule : Rule) (doc : Value) (items : List Value)
        (v : Verdict),
      rule.operator.getD "exists" = "regex" →
      extractObserved search rule doc = .list items →
      evaluate_rule search rule doc = .ok v →
      (v.passed = false ↔ ∃ x ∈ flattenOnce items,
        _eval_single "regex" x rule.expected none = .ok true)) ∧
    (evaluate_rule c5search c5rule .null).map Verdict.passed = .ok false := by
  refine ⟨?_, rfl⟩
  intro search rule doc items v hre hobs h
  rcases evaluate_rule_list_regex_inv search rule doc items v hobs hre h
    with ⟨b, hb, hp, _⟩
  have hiff := pyAny_ok_iff hb
  rw [hp]
  cases b with
  | true => simpa using hiff
  | false => simpa using hiff

/-- Witness for Claim C5 at the `"BEGIN"` instance. -/
theorem claim5_regex_inverted_aggregation_witness :
    (c5rule.operator.getD "exists" = "regex" ∧
     extractObserved c5search c5rule .null =
       .list [.str "safe", .str "BEGIN SECRET"] ∧
     evaluate_rule c5search c5rule .null =
       .ok (mkVerdict c5rule false
         (.list [.str "safe", .str "BEGIN SECRET"]))) ∧
    ((mkVerdict c5rule false
        (.list [.str "safe", .str "BEGIN SECRET"])).passed = false ↔
      ∃ x ∈ flattenOnce [.str "safe", .str "BEGIN SECRET"],
        _eval_single "regex" x c5rule.expected none = .ok true) :=
  ⟨⟨rfl, rfl, rfl⟩,
   claim5_regex_inverted_aggregation.1 c5search c5rule .null
     [.str "safe", .str "BEGIN SECRET"] _ rfl rfl rfl⟩

/-! ### Claim C6 -/

def c6rule : Rule := { jmespath := some "a[*].b", operator := some "exists" }

def c6search : Search :=
  fun _ _ => .ok (.list [.list [.list [.int 1]], .int 2])

/-- Claim C6: before the aggregate predicate runs, a sequence observation
is flattened exactly one level — sub-sequences are spliced, other elements
kept, and the flattening is not recursive (a two-level-deep sequence stays
a sequence element); the verdict's observed value is the flattened
sequence. -/
theorem claim6_flatten_one_level :
    (∀ (search : Search) (rule : Rule) (doc : Value) (items : List Value)
        (v : Verdict),
      extractObserved search rule doc = .list items →
      evaluate_rule search rule doc = .ok v →
      v.observed = .list (flattenOnce items)) ∧
    (∀ (ys xs : List Value),
      flattenOnce (.list ys :: xs) = ys ++ flattenOnce xs) ∧
    (∀ (x : Value) (xs : List Value), x.isList = false →
      flattenOnce (x :: xs) = x :: flattenOnce xs) ∧
    flattenOnce [.list [.list [.int 1]], .int 2] =
      [.list [.int 1], .int 2] := by
  refine ⟨?_, fun ys xs => rfl, ?_, rfl⟩
  · intro search rule doc items v hobs h
    by_cases hre : rule.operator.getD "exists" = "regex"
    · rcases evaluate_rule_list_regex_inv search rule doc items v hobs hre h
        with ⟨b, _, _, hob⟩
      exact hob
    · exact (evaluate_rule_list_inv search rule doc items v hobs hre h).2
  · intro x xs hx
    cases x with
    | list ys => simp [Value.isList] at hx
    | null => rfl
    | bool b => rfl
    | int n => rfl
    | str s => rfl
    | dict kvs => rfl

/-- Witness for Claim C6 at a nested two-level sequence observation. -/
theorem claim6_flatten_one_level_witness :
    (extractObserved c6search c6rule .null =
       .list [.list [.list [.int 1]], .int 2] ∧
     evaluate_rule c6search c6rule .null =
       .ok (mkVerdict c6rule true (.list [.list [.int 1], .int 2]))) ∧
    (mkVerdict c6rule true (.list [.list [.int 1], .int 2])).observed =
      .list (flattenOnce [.list [.list [.int 1]], .int 2]) ∧
    Value.isList (.int 2) = false ∧
    flattenOnce [.int 2] = .int 2 :: flattenOnce [] :=
  ⟨⟨rfl, rfl⟩,
   claim6_flatten_one_level.1 c6search c6rule .null
     [.list [.list [.int 1]], .int 2] _ rfl rfl,
   rfl,
   claim6_flatten_one_level.2.2.1 (.int 2) [] rfl⟩

/-! ### Claim C7 -/

def c7rule : Rule := { jmespath := some "x", operator := some "exists" }

def c7search : Search := fun _ _ => .ok (.list [.null])

/-- Claim C7 counterexample: the claim says a non-null observation with
operator `exists` always passes; but the sequence observation `[null]` is
non-null (it is a list), and the verdict has `passed = false`, because for
sequences the check is applied elementwise and the element is null. -/
theorem claim7_counterexample :
    evaluate_rule c7search c7rule .null =
      .ok (mkVerdict c7rule false (.list [.null])) := rfl

/-- Claim C7 (amended): for a non-sequence observation, `exists` passes iff
the observation is non-null and `absent` passes iff it is null; for a
sequence observation the elementwise check is AND-aggregated over the
flattened elements (`exists` passes iff every element is non-null, `absent`
iff every element is null; an empty sequence passes both). -/
theorem claim7_amended_exists_absent :
    (∀ (search : Search) (rule : Rule) (doc : Value),
      rule.operator.getD "exists" = "exists" →
      (extractObserved search rule doc).isList = false →
      evaluate_rule search rule doc =
        .ok (mkVerdict rule (!(extractObserved search rule doc).isNull)
          (extractObserved search rule doc))) ∧
    (∀ (search : Search) (rule : Rule) (doc : Value),
      rule.operator.getD "exists" = "absent" →
      (extractObserved search rule doc).isList = false →
      evaluate_rule search rule doc =
        .ok (mkVerdict rule (extractObserved search rule doc).isNull
          (extractObserved search rule doc))) ∧
    (∀ (search : Search) (rule : Rule) (doc : Value) (items : List Value),
      rule.operator.getD "exists" = "exists" →
      extractObserved search rule doc = .list items →
      evaluate_rule search rule doc =
        .ok (mkVerdict rule
          ((flattenOnce items).all (fun x => !x.isNull))
          (.list (flattenOnce items)))) ∧
    (∀ (search : Search) (rule : Rule) (doc : Value) (items : List Value),
      rule.operator.getD "exists" = "absent" →
      extractObserved search rule doc = .list items →
      evaluate_rule search rule doc =
        .ok (mkVerdict rule ((flattenOnce items).all Value.isNull)
          (.list (flattenOnce items)))) := by
  refine ⟨?_, ?_, ?_, ?_⟩
  · intro search rule doc hop hl
    apply evaluate_rule_scalar_ok search rule doc _ hl
    rw [hop]; rfl
  · intro search rule doc hop hl
    apply evaluate_rule_scalar_ok search rule doc _ hl
    rw [hop]; rfl
  · intro search rule doc items hop hobs
    apply evaluate_rule_list_ok search rule doc items _ hobs
      (by rw [hop]; decide)
    exact pyAll_pred (fun x => by rw [hop]; rfl) (flattenOnce items)
  · intro search rule doc items hop hobs
    apply evaluate_rule_list_ok search rule doc items _ hobs
      (by rw [hop]; decide)
    exact pyAll_pred (fun x => by rw [hop]; rfl) (flattenOnce items)

def c7asearch : Search := fun _ _ => .ok .null

def c7arule : Rule := { jmespath := some "x", operator := some "absent" }

/-- Witness for the amended Claim C7: `exists` on a null scalar observation
fails, `absent` on it passes, and `absent` on the sequence `[null]`
passes. -/
theorem claim7_amended_exists_absent_witness :
    (c7rule.operator.getD "exists" = "exists" ∧
     (extractObserved c7asearch c7rule .null).isList = false ∧
     evaluate_rule c7asearch c7rule .null =
       .ok (mkVerdict c7rule false .null)) ∧
    (c7arule.operator.getD "exists" = "absent" ∧
     evaluate_rule c7search c7arule .null =
       .ok (mkVerdict c7arule true (.list [.null]))) :=
  ⟨⟨rfl, rfl,
    claim7_amended_exists_absent.1 c7asearch c7rule .null rfl rfl⟩,
   ⟨rfl,
    claim7_amended_exists_absent.2.2.2 c7search c7arule .null [.null]
      rfl rfl⟩⟩

/-! ### Claim C8 -/

/-- Claim C8: rule evaluation is a deterministic pure function of the
(rule, document) pair — in this embedding `evaluate_rule` and
`run_rules_for_file` are Lean functions of their arguments (the Python
source reads no global mutable state and mutates neither the rule nor the
document), so two evaluations of the same inputs are identical. -/
theorem claim8_pure_deterministic (search : Search) (rule : Rule)
    (doc : Value) (rules : List Rule) :
    evaluate_rule search rule doc = evaluate_rule search rule doc ∧
    run_rules_for_file search rules doc = run_rules_for_file search rules doc :=
  ⟨rfl, rfl⟩

/-! ### Claim C9 -/

/-- Claim C9: when the runner returns, it returns exactly one verdict per
rule, in input order, the i-th verdict being the evaluation of the i-th
rule against the document. -/
theorem claim9_runner_one_verdict_per_rule (search : Search)
    (rules : List Rule) (doc : Value) (vs : List Verdict)
    (h : run_rules_for_file search rules doc = .ok vs) :
    vs.length = rules.length ∧
    ∀ (i : Nat) (hi : i < rules.length) (hv : i < vs.length),
      evaluate_rule search (rules.get ⟨i, hi⟩) doc = .ok (vs.get ⟨i, hv⟩) := by
  induction rules generalizing vs with
  | nil =>
    simp only [run_rules_for_file, Except.ok.injEq] at h
    subst h
    exact ⟨rfl, fun i hi _ => absurd hi (Nat.not_lt_zero i)⟩
  | cons r rs ih =>
    simp only [run_rules_for_file] at h
    cases he : evaluate_rule search r doc with
    | error e => rw [he] at h; cases h
    | ok v =>
      rw [he] at h
      cases hrun : run_rules_for_file search rs doc with
      | error e => rw [hrun] at h; cases h
      | ok vs' =>
        rw [hrun] at h
        simp only [Except.ok.injEq] at h
        subst h
        rcases ih vs' hrun with ⟨hlen, hget⟩
        refine ⟨by simp [hlen], ?_⟩
        intro i hi hv
        cases i with
        | zero => exact he
        | succ n =>
          exact hget n (Nat.lt_of_succ_lt_succ hi) (Nat.lt_of_succ_lt_succ hv)

def c9r1 : Rule :=
  { id := .str "R1", jmespath := some "foo.bar", operator := some "equals",
    expected := .int 42 }

def c9r2 : Rule :=
  { id := .str "R2", jmespath := some "foo.baz", operator := some "absent" }

def c9search : Search :=
  fun e _ => if e = "foo.bar" then .ok (.int 42) else .ok .null

/-- Witness for Claim C9 on a two-rule run. -/
theorem claim9_runner_one_verdict_per_rule_witness :
    run_rules_for_file c9search [c9r1, c9r2] .null =
      .ok [mkVerdict c9r1 true (.int 42), mkVerdict c9r2 true .null] ∧
    ([mkVerdict c9r1 true (.int 42),
      mkVerdict c9r2 true .null] : List Verdict).length =
      ([c9r1, c9r2] : List Rule).length ∧
    ∀ (i : Nat) (hi : i < ([c9r1, c9r2] : List Rule).length)
      (hv : i < ([mkVerdict c9r1 true (.int 42),
                  mkVerdict c9r2 true .null] : List Verdict).length),
      evaluate_rule c9search (([c9r1, c9r2] : List Rule).get ⟨i, hi⟩) .null =
        .ok (([mkVerdict c9r1 true (.int 42),
               mkVerdict c9r2 true .null] : List Verdict).get ⟨i, hv⟩) :=
  ⟨rfl,
   claim9_runner_one_verdict_per_rule c9search [c9r1, c9r2] .null
     [mkVerdict c9r1 true (.int 42), mkVerdict c9r2 true .null] rfl⟩

/-! ### Claim C10 -/

/-- Claim C10: a present-but-empty path expression is treated exactly like a
missing one — extraction is skipped (the string is falsy), the observation
is null, so `exists` fails and `absent` passes. -/
theorem claim10_empty_path_like_missing :
    (∀ (search : Search) (r : Rule) (doc : Value),
      evaluate_rule search { r with jmespath := some "" } doc =
        evaluate_rule search { r with jmespath := none } doc) ∧
    (∀ (search : Search) (r : Rule) (doc : Value),
      r.jmespath = some "" → r.operator = some "exists" →
      (evaluate_rule search r doc).map Verdict.passed = .ok false) ∧
    (∀ (search : Search) (r : Rule) (doc : Value),
      r.jmespath = some "" → r.operator = some "absent" →
      (evaluate_rule search r doc).map Verdict.passed = .ok true) := by
  refine ⟨?_, ?_, ?_⟩
  · intro search r doc
    rfl
  · intro search r doc hj hop
    have hobs : extractObserved search r doc = .null := by
      unfold extractObserved; rw [hj]; rfl
    have he : _eval_single (r.operator.getD "exists")
        (extractObserved search r doc) r.expected (some r) = .ok false := by
      rw [hobs, hop]; rfl
    rw [evaluate_rule_scalar_ok search r doc false (by rw [hobs]; rfl) he]
    rfl
  · intro search r doc hj hop
    have hobs : extractObserved search r doc = .null := by
      unfold extractObserved; rw [hj]; rfl
    have he : _eval_single (r.operator.getD "exists")
        (extractObserved search r doc) r.expected (some r) = .ok true := by
      rw [hobs, hop]; rfl
    rw [evaluate_rule_scalar_ok search r doc true (by rw [hobs]; rfl) he]
    rfl

def c10rule : Rule := { jmespath := some "", operator := some "exists" }

def c10arule : Rule := { jmespath := some "", operator := some "absent" }

def c10search : Search := fun _ _ => .ok (.int 99)

/-- Witness for Claim C10 at concrete rules with an empty path. -/
theorem claim10_empty_path_like_missing_witness :
    (c10rule.jmespath = some "" ∧ c10rule.operator = some "exists" ∧
     (evaluate_rule c10search c10rule .null).map Verdict.passed = .ok false) ∧
    (c10arule.jmespath = some "" ∧ c10arule.operator = some "absent" ∧
     (evaluate_rule c10search c10arule .null).map Verdict.passed = .ok true) :=
  ⟨⟨rfl, rfl,
    claim10_empty_path_like_missing.2.1 c10search c10rule .null rfl rfl⟩,
   ⟨rfl, rfl,
    claim10_empty_path_like_missing.2.2 c10search c10arule .null rfl rfl⟩⟩

end HCP
